import Mathlib

/-!
Verification of the OmniGibson starter semantic action primitives core
against its natural-language specification.

The development shallowly embeds the relevant parts of
`omnigibson/action_primitives/starter_semantic_action_primitives.py`,
`omnigibson/utils/grasping_planning_utils.py` and `dev/utils.py` as Lean
functions.  Machine floating-point arithmetic is modelled by exact rational
arithmetic; external numeric routines (square root, trigonometry) and the
physics simulator appear as explicit function parameters; Python
generators are modelled by the list of actions they yield together with an
`Except` outcome, and Python exceptions by `Except` values.
-/

set_option autoImplicit false

namespace OG

/-- Reason codes carried by ActionPrimitiveError
(action_primitive_set_base.ActionPrimitiveError.Reason). -/
inductive APReason where
  | preConditionError
  | planningError
  | samplingError
  | executionError
deriving DecidableEq, Repr

/-! ## Pose algebra from dev/utils.py -/

/-- A quaternion with components named as in dev/utils.py
(scalar part a, vector parts b c d), over exact rationals. -/
structure Quat where
  a : ℚ
  b : ℚ
  c : ℚ
  d : ℚ
deriving DecidableEq, Repr

/-- The 1e-10 regularizer added to the squared norm in qinv. -/
def qeps : ℚ := 1 / 10 ^ 10

/-- Squared norm a^2 + b^2 + c^2 + d^2 computed inside qinv. -/
def qnorm2 (q : Quat) : ℚ := q.a ^ 2 + q.b ^ 2 + q.c ^ 2 + q.d ^ 2

/-- Hamilton product, translated from dev/utils.py qmul. -/
def qmul (q1 q2 : Quat) : Quat :=
  { a := q1.a * q2.a - q1.b * q2.b - q1.c * q2.c - q1.d * q2.d
    b := q1.a * q2.b + q2.a * q1.b + q1.c * q2.d - q2.c * q1.d
    c := q1.a * q2.c + q2.a * q1.c - q1.b * q2.d + q2.b * q1.d
    d := q1.a * q2.d + q2.a * q1.d + q1.b * q2.c - q2.b * q1.c }

/-- Quaternion inversion, translated from dev/utils.py qinv:
the conjugate divided by the squared norm plus a 1e-10 regularizer. -/
def qinv (q : Quat) : Quat :=
  { a := q.a / (qnorm2 q + qeps)
    b := -q.b / (qnorm2 q + qeps)
    c := -q.c / (qnorm2 q + qeps)
    d := -q.d / (qnorm2 q + qeps) }

/-- The exact scalar by which a unit quaternion is rescaled under double
inversion: (1 + eps) / (1 + eps (1 + eps)^2) with eps the 1e-10 regularizer. -/
def qk : ℚ := (1 + qeps) / (1 + qeps * (1 + qeps) ^ 2)

theorem qinv_of_unit (p : Quat) (h : qnorm2 p = 1) :
    qinv p = ⟨p.a / (1 + qeps), -p.b / (1 + qeps), -p.c / (1 + qeps), -p.d / (1 + qeps)⟩ := by
  obtain ⟨a, b, c, d⟩ := p
  simp only [qnorm2] at h
  simp only [qinv, qnorm2]
  rw [h]

theorem qinv_qinv_unit (p : Quat) (h : qnorm2 p = 1) :
    qinv (qinv p) = ⟨qk * p.a, qk * p.b, qk * p.c, qk * p.d⟩ := by
  obtain ⟨a, b, c, d⟩ := p
  rw [qinv_of_unit ⟨a, b, c, d⟩ h]
  simp only [qnorm2] at h
  have hDne : (1 : ℚ) + qeps ≠ 0 := by norm_num [qeps]
  have hS : qnorm2 ⟨a / (1 + qeps), -b / (1 + qeps), -c / (1 + qeps), -d / (1 + qeps)⟩ + qeps
      = (1 + qeps * (1 + qeps) ^ 2) / (1 + qeps) ^ 2 := by
    simp only [qnorm2]
    field_simp
    linear_combination h
  have hKne : (1 : ℚ) + qeps * (1 + qeps) ^ 2 ≠ 0 := by norm_num [qeps]
  simp only [qinv, hS, Quat.mk.injEq, qk]
  refine ⟨?_, ?_, ?_, ?_⟩ <;> field_simp <;> ring

/-- Every component of a unit quaternion has absolute value at most one. -/
theorem abs_component_le_one (x r1 r2 r3 : ℚ) (h : x ^ 2 + r1 ^ 2 + r2 ^ 2 + r3 ^ 2 = 1) :
    |x| ≤ 1 := by
  have hx : x ^ 2 ≤ 1 := by nlinarith [sq_nonneg r1, sq_nonneg r2, sq_nonneg r3]
  exact (sq_le_one_iff_abs_le_one x).mp hx

theorem scaled_component_close (x k : ℚ) (hx : |x| ≤ 1) (hk : |k - 1| < 1 / 10 ^ 5) :
    |k * x - x| < 1 / 10 ^ 5 := by
  have hrw : k * x - x = (k - 1) * x := by ring
  rw [hrw, abs_mul]
  calc |k - 1| * |x| ≤ |k - 1| * 1 := by
        exact mul_le_mul_of_nonneg_left hx (abs_nonneg _)
    _ = |k - 1| := mul_one _
    _ < 1 / 10 ^ 5 := hk

theorem qk_close_to_one : |qk - 1| < 1 / 10 ^ 5 := by
  rw [abs_lt]
  constructor <;> norm_num [qk, qeps]

/-- C9: quaternion inversion as implemented by qinv is an involution
within 1e-5 on every unit-norm quaternion: each component of
qinv (qinv p) differs from the matching component of p by less than 1e-5. -/
theorem c9_qinv_involution (p : Quat) (h : qnorm2 p = 1) :
    |(qinv (qinv p)).a - p.a| < 1 / 10 ^ 5 ∧
    |(qinv (qinv p)).b - p.b| < 1 / 10 ^ 5 ∧
    |(qinv (qinv p)).c - p.c| < 1 / 10 ^ 5 ∧
    |(qinv (qinv p)).d - p.d| < 1 / 10 ^ 5 := by
  rw [qinv_qinv_unit p h]
  obtain ⟨a, b, c, d⟩ := p
  simp only [qnorm2] at h
  refine ⟨?_, ?_, ?_, ?_⟩
  · exact scaled_component_close a qk (abs_component_le_one a b c d h) qk_close_to_one
  · exact scaled_component_close b qk (abs_component_le_one b a c d (by linarith)) qk_close_to_one
  · exact scaled_component_close c qk (abs_component_le_one c a b d (by linarith)) qk_close_to_one
  · exact scaled_component_close d qk (abs_component_le_one d a b c (by linarith)) qk_close_to_one

/-- Witness for C9 at the concrete unit quaternion (1, 0, 0, 0). -/
theorem c9_qinv_involution_witness :
    qnorm2 ⟨1, 0, 0, 0⟩ = 1 ∧
    (|(qinv (qinv ⟨1, 0, 0, 0⟩)).a - (1 : ℚ)| < 1 / 10 ^ 5 ∧
     |(qinv (qinv ⟨1, 0, 0, 0⟩)).b - (0 : ℚ)| < 1 / 10 ^ 5 ∧
     |(qinv (qinv ⟨1, 0, 0, 0⟩)).c - (0 : ℚ)| < 1 / 10 ^ 5 ∧
     |(qinv (qinv ⟨1, 0, 0, 0⟩)).d - (0 : ℚ)| < 1 / 10 ^ 5) :=
  ⟨by norm_num [qnorm2], c9_qinv_involution ⟨1, 0, 0, 0⟩ (by norm_num [qnorm2])⟩

/-! ## Predicate-pose probe (_sample_pose_with_object_and_predicate) -/

/-- Simulator-affecting operations performed by the probe, in source order. -/
inductive SimOp where
  | dumpState
  | releaseGrasp
  | sampleKin
  | loadState
  | simStep
  | establishGrasp
deriving DecidableEq, Repr

/-- Abstracted live simulator state: the scene content (object poses etc.)
collapsed to one value, plus whether the assisted-grasp constraint is active. -/
structure SimState where
  scene : Int
  graspActive : Bool
deriving DecidableEq, Repr

/-- Straight-line translation of _sample_pose_with_object_and_predicate.
perturb models the scene mutation performed by the sample_kinematics trials,
stepF the one og.sim.step() settling tick, and sampleOk the truthiness of
the sample_kinematics result.  Returns the trace of simulator operations,
the final simulator state, and the outcome. -/
def samplePoseWithObjectAndPredicate (perturb stepF : Int → Int) (sampleOk : Bool)
    (σ : SimState) : List SimOp × SimState × Except APReason Int :=
  let snap := σ
  let σ1 : SimState := { σ with graspActive := false }
  let σ2 : SimState := { σ1 with scene := perturb σ1.scene }
  if !sampleOk then
    ([.dumpState, .releaseGrasp, .sampleKin], σ2, .error .samplingError)
  else
    let pose := σ2.scene
    let σ3 : SimState := { σ2 with scene := snap.scene }
    let σ4 : SimState := { σ3 with scene := stepF σ3.scene }
    let σ5 : SimState := { σ4 with graspActive := true }
    ([.dumpState, .releaseGrasp, .sampleKin, .loadState, .simStep, .establishGrasp],
     σ5, .ok pose)

/-- C1: evaluating the probe at a failing input (sample_kinematics finds no
placement) shows the code raises SAMPLING_ERROR without restoring the
snapshot or re-establishing the grasp constraint: starting from scene 0
with the grasp active, it ends in scene 1 with the grasp released, and the
trace contains neither loadState nor establishGrasp. -/
theorem c1_probe_failure_leaves_state_mutated :
    samplePoseWithObjectAndPredicate (fun s => s + 1) id false ⟨0, true⟩
      = ([.dumpState, .releaseGrasp, .sampleKin], ⟨1, false⟩, .error .samplingError) ∧
    (⟨1, false⟩ : SimState) ≠ ⟨0, true⟩ :=
  ⟨rfl, by decide⟩

/-! ## GRASP precondition (grasp, lines 322-337) -/

/-- Robot-and-scene state visible to the grasp precondition check:
the object currently held (by identity) and the rest of the scene. -/
structure RobotHandState where
  held : Option Nat
  scene : Int
deriving DecidableEq, Repr

/-- Outcome of advancing a primitive generator to completion: the list of
yielded low-level actions (abstracted to tags), the final state, and either
normal completion or an ActionPrimitiveError. -/
abbrev GenOutcome := List Int × RobotHandState × Except APReason Unit

/-- Translation of the head of grasp: the held-object dispatch performed
before anything is yielded.  The pipeline parameter abstracts the rest of
the generator body (sampling, navigation, hand motion, gripping), which is
reached only when the hand is empty. -/
def graspPrim (σ : RobotHandState) (target : Nat)
    (pipeline : RobotHandState → Nat → GenOutcome) : GenOutcome :=
  match σ.held with
  | some h => if h = target then ([], σ, .ok ()) else ([], σ, .error .preConditionError)
  | none => pipeline σ target

/-- C2: GRASP on the already-held object completes with no yielded action
and the state (hence the held-object identity) unchanged; GRASP while a
different object is held raises PRE_CONDITION_ERROR with no yielded action
and the state unchanged. -/
theorem c2_grasp_precondition (σ : RobotHandState) (target : Nat)
    (pipeline : RobotHandState → Nat → GenOutcome) :
    (σ.held = some target → graspPrim σ target pipeline = ([], σ, .ok ())) ∧
    (∀ h, σ.held = some h → h ≠ target →
      graspPrim σ target pipeline = ([], σ, .error .preConditionError)) := by
  constructor
  · intro hh
    simp [graspPrim, hh]
  · intro h hh hne
    simp [graspPrim, hh, hne]

/-- Witness for C2: a robot holding object 7 asked to grasp 7 (no-op) and a
robot holding object 8 asked to grasp 7 (precondition error). -/
theorem c2_grasp_precondition_witness :
    graspPrim ⟨some 7, 3⟩ 7 (fun σ _ => ([], σ, .ok ())) = ([], ⟨some 7, 3⟩, .ok ()) ∧
    graspPrim ⟨some 8, 3⟩ 7 (fun σ _ => ([], σ, .ok ())) =
      ([], ⟨some 8, 3⟩, .error .preConditionError) :=
  ⟨(c2_grasp_precondition ⟨some 7, 3⟩ 7 _).1 rfl,
   (c2_grasp_precondition ⟨some 8, 3⟩ 7 _).2 8 rfl (by decide)⟩

/-! ## Bounded control loops

Each loop is embedded over an observation sequence: the Bool stream gives,
for each iteration index, whether the loop's goal condition held at that
iteration (joint error within threshold, 2-D pose within thresholds, yaw
error within threshold).  The loop returns the index at which it stopped
together with its outcome. -/

/-- Step budget of the navigation direct-drive loop (source constant). -/
def MAX_STEPS_FOR_NAVIGATE_TO_POSE_DIRECT : Nat := 400

/-- Step budget of the joint-space hand tracking loop (source constant). -/
def MAX_STEPS_FOR_MOVE_HAND_DIRECT_JOINT : Nat := 400

/-- Number of gripper-close steps in _execute_grasp (source constant). -/
def MAX_STEPS_FOR_GRASP_OR_RELEASE : Nat := 30

/-- Number of settle steps in _execute_grasp (source constant). -/
def MAX_WAIT_FOR_GRASP_OR_RELEASE : Nat := 10

/-- Loop skeleton of _move_hand_direct_joint: each iteration checks the
goal then yields one action; when the budget is exhausted the loop raises
EXECUTION_ERROR.  The same skeleton with budget 600 is
_move_hand_direct_ik. -/
def moveHandDirectJoint (reached : Nat → Bool) : Nat → Nat → Nat × Except APReason Unit
  | 0, t => (t, .error .executionError)
  | b + 1, t => if reached t then (t, .ok ()) else moveHandDirectJoint reached b (t + 1)

/-- Loop skeleton of the omnidirectional (Tiago) branch of
_navigate_to_pose_direct: each iteration checks the goal then yields one
action; when the budget is exhausted the generator simply ends (the source
has no raise after this for-loop). -/
def navigateToPoseDirectTiago (atGoal : Nat → Bool) : Nat → Nat → Nat × Except APReason Unit
  | 0, t => (t, .ok ())
  | b + 1, t => if atGoal t then (t, .ok ()) else navigateToPoseDirectTiago atGoal b (t + 1)

/-- Loop of _rotate_in_place: a while-loop on the yaw error with no step
counter in the source.  The fuel argument is an artifact of the embedding:
a result of none means the loop has not exited within that many
iterations (and the source raises nothing). -/
def rotateInPlaceSteps (yawOk : Nat → Bool) : Nat → Nat → Option Nat
  | 0, _ => none
  | f + 1, t => if yawOk t then some t else rotateInPlaceSteps yawOk f (t + 1)

/-- Translation of _execute_grasp: 30 close steps plus 10 settle steps are
always yielded, then EXECUTION_ERROR is raised when no object is held. -/
def executeGrasp (heldAfterSettle : Option Nat) : Nat × Except APReason Unit :=
  (MAX_STEPS_FOR_GRASP_OR_RELEASE + MAX_WAIT_FOR_GRASP_OR_RELEASE,
   match heldAfterSettle with
   | none => .error .executionError
   | some _ => .ok ())

theorem moveHandDirectJoint_exhaust (reached : Nat → Bool) (b : Nat) :
    ∀ t, (∀ i, i < b → reached (t + i) = false) →
      moveHandDirectJoint reached b t = (t + b, .error .executionError) := by
  induction b with
  | zero => intro t _; simp [moveHandDirectJoint]
  | succ b ih =>
    intro t h
    have h0 : reached t = false := by simpa using h 0 (Nat.succ_pos b)
    have hrest : ∀ i, i < b → reached (t + 1 + i) = false := by
      intro i hi
      have := h (i + 1) (by omega)
      simpa [show t + (i + 1) = t + 1 + i by omega] using this
    have htb : t + 1 + b = t + (b + 1) := by omega
    simp [moveHandDirectJoint, h0]
    rw [ih (t + 1) hrest, htb]

theorem navigateToPoseDirectTiago_exhaust (atGoal : Nat → Bool) (b : Nat) :
    ∀ t, (∀ i, i < b → atGoal (t + i) = false) →
      navigateToPoseDirectTiago atGoal b t = (t + b, .ok ()) := by
  induction b with
  | zero => intro t _; simp [navigateToPoseDirectTiago]
  | succ b ih =>
    intro t h
    have h0 : atGoal t = false := by simpa using h 0 (Nat.succ_pos b)
    have hrest : ∀ i, i < b → atGoal (t + 1 + i) = false := by
      intro i hi
      have := h (i + 1) (by omega)
      simpa [show t + (i + 1) = t + 1 + i by omega] using this
    have htb : t + 1 + b = t + (b + 1) := by omega
    simp [navigateToPoseDirectTiago, h0]
    rw [ih (t + 1) hrest, htb]

theorem rotateInPlaceSteps_never (yawOk : Nat → Bool) (h : ∀ t, yawOk t = false) :
    ∀ fuel t, rotateInPlaceSteps yawOk fuel t = none := by
  intro fuel
  induction fuel with
  | zero => intro t; rfl
  | succ f ih => intro t; simp [rotateInPlaceSteps, h t, ih]

/-- C3 counterexample: when the goal is never reached, the navigation
direct-drive loop exhausts its 400-step budget and ends with normal
completion instead of EXECUTION_ERROR, and the rotate-in-place sub-loop is
still running after one million iterations without raising anything (the
source while-loop has no step budget at all). -/
theorem c3_counterexample :
    navigateToPoseDirectTiago (fun _ => false) MAX_STEPS_FOR_NAVIGATE_TO_POSE_DIRECT 0
      = (400, .ok ()) ∧
    rotateInPlaceSteps (fun _ => false) 1000000 0 = none := by
  constructor
  · simpa using navigateToPoseDirectTiago_exhaust (fun _ => false)
      MAX_STEPS_FOR_NAVIGATE_TO_POSE_DIRECT 0 (fun _ _ => rfl)
  · exact rotateInPlaceSteps_never (fun _ => false) (fun _ => rfl) 1000000 0

/-- C3 amended: the joint tracking loop raises EXECUTION_ERROR when its
400-step budget is exhausted without reaching the goal, and the grasp
settle check raises EXECUTION_ERROR when no object is held after its fixed
40 steps; but the navigation direct-drive loop ends silently (normal
completion) when its 400-step budget is exhausted, and its rotate-in-place
sub-loop has no step budget: it runs forever when the yaw error never
falls below threshold. -/
theorem c3_amended :
    (∀ reached : Nat → Bool,
      (∀ i, i < MAX_STEPS_FOR_MOVE_HAND_DIRECT_JOINT → reached i = false) →
      moveHandDirectJoint reached MAX_STEPS_FOR_MOVE_HAND_DIRECT_JOINT 0
        = (MAX_STEPS_FOR_MOVE_HAND_DIRECT_JOINT, .error .executionError)) ∧
    executeGrasp none = (40, .error .executionError) ∧
    (∀ atGoal : Nat → Bool,
      (∀ i, i < MAX_STEPS_FOR_NAVIGATE_TO_POSE_DIRECT → atGoal i = false) →
      navigateToPoseDirectTiago atGoal MAX_STEPS_FOR_NAVIGATE_TO_POSE_DIRECT 0
        = (MAX_STEPS_FOR_NAVIGATE_TO_POSE_DIRECT, .ok ())) ∧
    (∀ yawOk : Nat → Bool, (∀ t, yawOk t = false) →
      ∀ fuel t, rotateInPlaceSteps yawOk fuel t = none) := by
  refine ⟨?_, rfl, ?_, ?_⟩
  · intro reached h
    simpa using moveHandDirectJoint_exhaust reached
      MAX_STEPS_FOR_MOVE_HAND_DIRECT_JOINT 0 (fun i hi => by simpa using h i hi)
  · intro atGoal h
    simpa using navigateToPoseDirectTiago_exhaust atGoal
      MAX_STEPS_FOR_NAVIGATE_TO_POSE_DIRECT 0 (fun i hi => by simpa using h i hi)
  · exact rotateInPlaceSteps_never

/-- Witness for C3 amended on concrete never-reaching observation streams. -/
theorem c3_amended_witness :
    moveHandDirectJoint (fun _ => false) MAX_STEPS_FOR_MOVE_HAND_DIRECT_JOINT 0
      = (MAX_STEPS_FOR_MOVE_HAND_DIRECT_JOINT, .error .executionError) ∧
    navigateToPoseDirectTiago (fun _ => false) MAX_STEPS_FOR_NAVIGATE_TO_POSE_DIRECT 0
      = (MAX_STEPS_FOR_NAVIGATE_TO_POSE_DIRECT, .ok ()) ∧
    rotateInPlaceSteps (fun _ => false) 5 0 = none :=
  ⟨c3_amended.1 (fun _ => false) (fun _ _ => rfl),
   c3_amended.2.2.1 (fun _ => false) (fun _ _ => rfl),
   c3_amended.2.2.2 (fun _ => false) (fun _ => rfl) 5 0⟩

/-! ## Action synthesis (_empty_action) -/

/-- Control type of a controller (controller_base.ControlType). -/
inductive CtrlType where
  | position
  | velocity
  | effort
deriving DecidableEq, Repr

/-- Controller class dispatched on by name in _empty_action; anything not
recognized falls into unknownController. -/
inductive CtrlKind where
  | jointController
  | inverseKinematicsController
  | multiFingerGripperController
  | unknownController
deriving DecidableEq, Repr

/-- Configuration errors raised by _empty_action. -/
inductive ConfigError where
  | unsupportedGripperMode
  | unsupportedControllerType
deriving DecidableEq, Repr

/-- One controller group of the robot: its name, controller class, control
type, delta flag, gripper mode string, and its joint / action index sets. -/
structure ControllerGroup where
  groupName : String
  kind : CtrlKind
  controlType : CtrlType
  useDelta : Bool
  gripperMode : String
  jointIdx : List Nat
  actionIdx : List Nat
deriving DecidableEq, Repr

/-- The robot data consumed by _empty_action. -/
structure Robot where
  actionDim : Nat
  jointPositions : List ℚ
  resetJointPos : List ℚ
  controllers : List ControllerGroup
deriving DecidableEq, Repr

/-- Fancy-index assignment action[action_idx] = vals. -/
def setIdx (v : List ℚ) (idx : List Nat) (vals : List ℚ) : List ℚ :=
  (idx.zip vals).foldl (fun a iv => a.set iv.1 iv.2) v

/-- Fancy-index read vals[joint_idx]. -/
def gather (v : List ℚ) (idx : List Nat) : List ℚ :=
  idx.map (fun i => v.getD i 0)

/-- Per-group body of the _empty_action loop, translated case by case.
The initial assert in the source is a parenthesized tuple and therefore
never fires; the effort / mismatched-length JointController case prints a
warning and continues, it does not raise. -/
def emptyActionGroup (r : Robot) (action : List ℚ) (c : ControllerGroup) :
    Except ConfigError (List ℚ) :=
  match c.kind with
  | .jointController =>
    if c.controlType = .position ∧ c.jointIdx.length = c.actionIdx.length then
      if c.useDelta then .ok action
      else if c.groupName = "camera" then
        .ok (setIdx action c.actionIdx (gather r.resetJointPos c.jointIdx))
      else
        .ok (setIdx action c.actionIdx (gather r.jointPositions c.jointIdx))
    else if c.controlType = .velocity ∧ c.jointIdx.length = c.actionIdx.length then
      .ok action
    else
      .ok action
  | .inverseKinematicsController => .ok action
  | .multiFingerGripperController =>
    if c.gripperMode = "binary" then .ok action
    else .error .unsupportedGripperMode
  | .unknownController => .error .unsupportedControllerType

/-- The for-loop of _empty_action over the controller groups. -/
def emptyActionLoop (r : Robot) (action : List ℚ) :
    List ControllerGroup → Except ConfigError (List ℚ)
  | [] => .ok action
  | c :: cs =>
    match emptyActionGroup r action c with
    | .ok action2 => emptyActionLoop r action2 cs
    | .error e => .error e

/-- Translation of _empty_action: start from the all-zero vector of length
action_dim and process each controller group in order. -/
def emptyAction (r : Robot) : Except ConfigError (List ℚ) :=
  emptyActionLoop r (List.replicate r.actionDim 0) r.controllers

/-- C4 counterexample: a camera group in absolute-position mode is filled
with the reset joint positions (here 7), not the robot's current joint
positions (here 5), so the group's entries do not equal the current joint
state. -/
theorem c4_counterexample :
    emptyAction ⟨1, [5], [7], [⟨"camera", .jointController, .position, false, "", [0], [0]⟩]⟩
      = .ok [7] ∧
    gather [5] [0] = [(5 : ℚ)] ∧ (7 : ℚ) ≠ 5 := by
  refine ⟨rfl, rfl, by norm_num⟩

theorem emptyActionLoop_all_delta (r : Robot) :
    ∀ (cs : List ControllerGroup) (acc : List ℚ),
      (∀ c ∈ cs, c.kind = .jointController ∧ c.controlType = .position ∧
        c.useDelta = true ∧ c.jointIdx.length = c.actionIdx.length) →
      emptyActionLoop r acc cs = .ok acc := by
  intro cs
  induction cs with
  | nil => intro acc _; rfl
  | cons c cs ih =>
    intro acc h
    obtain ⟨hk, hct, hd, hl⟩ := h c (List.mem_cons_self c cs)
    have hstep : emptyActionGroup r acc c = .ok acc := by
      simp [emptyActionGroup, hk, hct, hd, hl]
    simp [emptyActionLoop, hstep]
    exact ih acc (fun g hg => h g (List.mem_cons_of_mem c hg))

/-- C4 amended: in the no-op action vector, a non-camera group in
absolute-position mode is filled with the robot's current joint positions;
the camera group in absolute-position mode is filled with the reset joint
positions instead; and for a robot whose groups are all in position-delta
mode the vector stays all-zero. -/
theorem c4_amended :
    (∀ (dim : Nat) (jp rp : List ℚ) (name : String) (jidx aidx : List Nat),
      name ≠ "camera" → jidx.length = aidx.length →
      emptyAction ⟨dim, jp, rp, [⟨name, .jointController, .position, false, "", jidx, aidx⟩]⟩
        = .ok (setIdx (List.replicate dim 0) aidx (gather jp jidx))) ∧
    (∀ (dim : Nat) (jp rp : List ℚ) (jidx aidx : List Nat),
      jidx.length = aidx.length →
      emptyAction ⟨dim, jp, rp, [⟨"camera", .jointController, .position, false, "", jidx, aidx⟩]⟩
        = .ok (setIdx (List.replicate dim 0) aidx (gather rp jidx))) ∧
    (∀ r : Robot,
      (∀ c ∈ r.controllers, c.kind = .jointController ∧ c.controlType = .position ∧
        c.useDelta = true ∧ c.jointIdx.length = c.actionIdx.length) →
      emptyAction r = .ok (List.replicate r.actionDim 0)) := by
  refine ⟨?_, ?_, ?_⟩
  · intro dim jp rp name jidx aidx hname hlen
    simp [emptyAction, emptyActionLoop, emptyActionGroup, hname, hlen]
  · intro dim jp rp jidx aidx hlen
    simp [emptyAction, emptyActionLoop, emptyActionGroup, hlen]
  · intro r h
    exact emptyActionLoop_all_delta r r.controllers (List.replicate r.actionDim 0) h

/-- Witness for C4 amended: a base group in absolute mode receives the
current joint positions 3, 4; an all-delta two-group robot keeps the
all-zero vector. -/
theorem c4_amended_witness :
    emptyAction ⟨2, [3, 4], [0, 0], [⟨"base", .jointController, .position, false, "", [0, 1], [0, 1]⟩]⟩
      = .ok (setIdx (List.replicate 2 0) [0, 1] (gather [3, 4] [0, 1])) ∧
    emptyAction ⟨3, [3, 4, 5], [0, 0, 0],
        [⟨"base", .jointController, .position, true, "", [0], [0]⟩,
         ⟨"arm_left", .jointController, .position, true, "", [1, 2], [1, 2]⟩]⟩
      = .ok (List.replicate 3 0) :=
  ⟨c4_amended.1 2 [3, 4] [0, 0] "base" [0, 1] [0, 1] (by decide) rfl,
   c4_amended.2.2 _ (by decide)⟩

/-- C5 counterexample: a JointController group in effort control mode is
outside the supported set, yet _empty_action silently skips it (printing a
console warning) and produces an action vector instead of raising. -/
theorem c5_counterexample :
    emptyAction ⟨1, [0], [0], [⟨"base", .jointController, .effort, false, "", [0], [0]⟩]⟩
      = .ok [0] := rfl

/-- C5 amended: _empty_action raises a configuration error for a
MultiFingerGripperController in any non-binary mode and for an
unrecognized controller type, but a JointController in effort mode is
skipped silently, leaving that group's entries zero. -/
theorem c5_amended :
    (∀ (dim : Nat) (jp rp : List ℚ) (name mode : String) (ct : CtrlType) (ud : Bool)
        (jidx aidx : List Nat), mode ≠ "binary" →
      emptyAction ⟨dim, jp, rp, [⟨name, .multiFingerGripperController, ct, ud, mode, jidx, aidx⟩]⟩
        = .error .unsupportedGripperMode) ∧
    (∀ (dim : Nat) (jp rp : List ℚ) (name mode : String) (ct : CtrlType) (ud : Bool)
        (jidx aidx : List Nat),
      emptyAction ⟨dim, jp, rp, [⟨name, .unknownController, ct, ud, mode, jidx, aidx⟩]⟩
        = .error .unsupportedControllerType) ∧
    (∀ (dim : Nat) (jp rp : List ℚ) (name mode : String) (ud : Bool) (jidx aidx : List Nat),
      emptyAction ⟨dim, jp, rp, [⟨name, .jointController, .effort, ud, mode, jidx, aidx⟩]⟩
        = .ok (List.replicate dim 0)) := by
  refine ⟨?_, ?_, ?_⟩
  · intro dim jp rp name mode ct ud jidx aidx hmode
    simp [emptyAction, emptyActionLoop, emptyActionGroup, hmode]
  · intro dim jp rp name mode ct ud jidx aidx
    simp [emptyAction, emptyActionLoop, emptyActionGroup]
  · intro dim jp rp name mode ud jidx aidx
    simp [emptyAction, emptyActionLoop, emptyActionGroup]

/-- Witness for C5 amended: a continuous-mode gripper raises, an effort
JointController is skipped. -/
theorem c5_amended_witness :
    emptyAction ⟨1, [0], [0],
        [⟨"gripper_left", .multiFingerGripperController, .position, false, "smooth", [0], [0]⟩]⟩
      = .error .unsupportedGripperMode ∧
    emptyAction ⟨2, [1, 2], [0, 0], [⟨"arm_left", .jointController, .effort, false, "", [0, 1], [0, 1]⟩]⟩
      = .ok (List.replicate 2 0) :=
  ⟨c5_amended.1 1 [0] [0] "gripper_left" "smooth" .position false [0] [0] (by decide),
   c5_amended.2.2 2 [1, 2] [0, 0] "arm_left" "" false [0, 1] [0, 1]⟩

/-! ## Grasp sub-behavior error propagation (grasp / grasp_ik try-except) -/

/-- A sub-behavior generator run to completion: the actions it yielded and
either normal completion or an ActionPrimitiveError. -/
abbrev SubRun := List Int × Except APReason Unit

/-- The try-except structure of grasp around the Cartesian approach and
the grip: on an ActionPrimitiveError the hand retreats to the grasp pose
and the same error is re-raised; an error raised by the retreat itself
propagates instead. -/
def graspApproachAndGrip (approach grip retreat : SubRun) : SubRun :=
  match approach with
  | (aActs, .error e) =>
    match retreat with
    | (rActs, .ok _) => (aActs ++ rActs, .error e)
    | (rActs, .error e2) => (aActs ++ rActs, .error e2)
  | (aActs, .ok _) =>
    match grip with
    | (gActs, .error e) =>
      match retreat with
      | (rActs, .ok _) => (aActs ++ gActs ++ rActs, .error e)
      | (rActs, .error e2) => (aActs ++ gActs ++ rActs, .error e2)
    | (gActs, .ok _) => (aActs ++ gActs, .ok ())

/-- The try-except structure of grasp_ik around the approach and the grip:
both raise statements are commented out in the source, so after the
retreat the error is dropped and execution continues. -/
def graspIkApproachAndGrip (approach grip retreat : SubRun) : SubRun :=
  match approach with
  | (aActs, .error _) =>
    match retreat with
    | (rActs, .error e2) => (aActs ++ rActs, .error e2)
    | (rActs, .ok _) =>
      match grip with
      | (gActs, .error _) =>
        match retreat with
        | (r2Acts, .error e3) => (aActs ++ rActs ++ gActs ++ r2Acts, .error e3)
        | (r2Acts, .ok _) => (aActs ++ rActs ++ gActs ++ r2Acts, .ok ())
      | (gActs, .ok _) => (aActs ++ rActs ++ gActs, .ok ())
  | (aActs, .ok _) =>
    match grip with
    | (gActs, .error _) =>
      match retreat with
      | (rActs, .error e3) => (aActs ++ gActs ++ rActs, .error e3)
      | (rActs, .ok _) => (aActs ++ gActs ++ rActs, .ok ())
    | (gActs, .ok _) => (aActs ++ gActs, .ok ())

/-- C6 counterexample: in grasp_ik an EXECUTION_ERROR raised by the
approach sub-behavior is caught, the hand retreats, and the primitive
completes normally - the error is silently swallowed instead of being
re-raised. -/
theorem c6_counterexample :
    graspIkApproachAndGrip ([1], .error .executionError) ([2], .ok ()) ([3], .ok ())
      = ([1, 3, 2], .ok ()) := rfl

/-- C6 amended: in grasp an error raised by the approach or the grip
triggers a retreat and is then re-raised unchanged; in grasp_ik the same
errors trigger a retreat but are swallowed and the generator completes
normally. -/
theorem c6_amended :
    (∀ (aActs rActs : List Int) (e : APReason) (grip : SubRun),
      graspApproachAndGrip (aActs, .error e) grip (rActs, .ok ())
        = (aActs ++ rActs, .error e)) ∧
    (∀ (aActs gActs rActs : List Int) (e : APReason),
      graspApproachAndGrip (aActs, .ok ()) (gActs, .error e) (rActs, .ok ())
        = (aActs ++ gActs ++ rActs, .error e)) ∧
    (∀ (aActs gActs rActs : List Int) (e : APReason),
      graspIkApproachAndGrip (aActs, .error e) (gActs, .ok ()) (rActs, .ok ())
        = (aActs ++ rActs ++ gActs, .ok ())) ∧
    (∀ (aActs gActs rActs : List Int) (e : APReason),
      graspIkApproachAndGrip (aActs, .ok ()) (gActs, .error e) (rActs, .ok ())
        = (aActs ++ gActs ++ rActs, .ok ())) := by
  refine ⟨?_, ?_, ?_, ?_⟩ <;> intros <;> rfl

/-! ## Collision Shadow Context (UndoableContext) -/

/-- Category of a live collision mesh, as the context's enter step sees
it: a robot collision mesh, a robot grasping-frame mesh (never touched), a
floor-category mesh, a mesh of the currently held object, or any other
scene mesh. -/
inductive MeshCat where
  | robotMesh
  | graspingFrame
  | floorMesh
  | heldObjMesh
  | otherMesh
deriving DecidableEq, Repr

/-- A live collision mesh with its collision-enabled flag. -/
structure Mesh where
  id : Nat
  cat : MeshCat
  collisionEnabled : Bool
deriving DecidableEq, Repr

/-- The live world: scene meshes, the shadow collision bodies currently
present, and the rest of the simulator state. -/
structure World where
  meshes : List Mesh
  shadow : List Nat
  aux : Int
deriving DecidableEq, Repr

/-- Meshes whose collision flag enter() turns off: the robot's own meshes
outside the grasping frame (_disable_robot_colliders), floor-category
meshes and meshes of the held object (_disable_colliders). -/
def disabledInEnter (m : Mesh) : Bool :=
  m.cat == .robotMesh || m.cat == .floorMesh || m.cat == .heldObjMesh

/-- Bookkeeping of UndoableContext: the shadow bodies it created
(robot_copy and the per-link mesh copies) and the meshes it disabled
(disabled_meshes). -/
structure Ctx where
  createdShadow : List Nat
  disabledMeshes : List Nat
deriving DecidableEq, Repr

/-- Translation of UndoableContext.__enter__: duplicate the robot's
collision meshes as shadow bodies and disable collisions on robot, floor
and held-object meshes, recording everything disabled. -/
def ctxEnter (w : World) : World × Ctx :=
  ({ meshes := w.meshes.map
        (fun m => if disabledInEnter m then { m with collisionEnabled := false } else m),
     shadow := w.shadow ++ (w.meshes.filter (fun m => m.cat == .robotMesh)).map Mesh.id,
     aux := w.aux },
   ⟨(w.meshes.filter (fun m => m.cat == .robotMesh)).map Mesh.id,
    (w.meshes.filter disabledInEnter).map Mesh.id⟩)

/-- Translation of UndoableContext.__exit__: remove every shadow body the
context created and set collision_enabled back to true on every recorded
disabled mesh. -/
def ctxExit (w : World) (c : Ctx) : World :=
  { meshes := w.meshes.map
      (fun m => if m.id ∈ c.disabledMeshes then { m with collisionEnabled := true } else m),
    shadow := w.shadow.filter (fun s => !(c.createdShadow.contains s)),
    aux := w.aux }

/-- Python with-statement semantics for the context: __exit__ runs whether
the body completes normally or raises, and a raised error is then
propagated. -/
def withUndoableContext (w : World) (body : World → World × Option APReason) :
    World × Option APReason :=
  let wc := ctxEnter w
  let br := body wc.1
  (ctxExit br.1 wc.2, br.2)

theorem filter_not_contains_self (l : List Nat) :
    l.filter (fun s => !(l.contains s)) = [] := by
  induction l with
  | nil => rfl
  | cons a as ih =>
    simp only [List.filter]
    have ha : ((a :: as).contains a) = true := by simp
    rw [ha]
    simp only [Bool.not_true]
    have : ∀ x ∈ as, (!((a :: as).contains x)) = false := by
      intro x hx
      simp [hx]
    calc as.filter (fun s => !((a :: as).contains s)) = as.filter (fun _ => false) := by
          exact List.filter_congr this
      _ = [] := List.filter_false as

/-- C7: after the Collision Shadow Context exits - on both the normal path
and the exception path, since __exit__ runs on either - the number of
shadow bodies present is exactly zero and every mesh whose collision flag
was disabled during enter() has collision enabled again.  The body is
assumed not to add or remove shadow bodies or meshes itself (the planner
probes only move them). -/
theorem c7_shadow_context_restores (w : World) (body : World → World × Option APReason)
    (hw : w.shadow = [])
    (hbody : ∀ v : World, (body v).1.meshes = v.meshes ∧ (body v).1.shadow = v.shadow) :
    ((withUndoableContext w body).1.shadow).length = 0 ∧
    ((withUndoableContext w body).1.meshes.all
      (fun m => if m.id ∈ (ctxEnter w).2.disabledMeshes then m.collisionEnabled else true))
      = true := by
  obtain ⟨hbm, hbs⟩ := hbody (ctxEnter w).1
  constructor
  · show ((ctxExit (body (ctxEnter w).1).1 (ctxEnter w).2).shadow).length = 0
    simp only [ctxExit]
    rw [hbs]
    simp only [ctxEnter]
    rw [hw]
    simp only [List.nil_append]
    rw [filter_not_contains_self]
    rfl
  · show ((ctxExit (body (ctxEnter w).1).1 (ctxEnter w).2).meshes.all
      (fun m => if m.id ∈ (ctxEnter w).2.disabledMeshes then m.collisionEnabled else true)) = true
    simp only [ctxExit]
    rw [hbm]
    rw [List.all_eq_true]
    intro m hm
    obtain ⟨m0, _, rfl⟩ := List.mem_map.mp hm
    by_cases h : m0.id ∈ (ctxEnter w).2.disabledMeshes
    · simp [h]
    · simp [h]

/-- Witness for C7: a world with a robot mesh, a floor mesh and another
object, and a body that raises PLANNING_ERROR; after the unwound context
the shadow count is zero and all flags disabled in enter are true again. -/
theorem c7_shadow_context_restores_witness :
    ((withUndoableContext
        ⟨[⟨0, .robotMesh, true⟩, ⟨1, .floorMesh, true⟩, ⟨2, .otherMesh, true⟩], [], 0⟩
        (fun v => (v, some .planningError))).1.shadow).length = 0 ∧
    ((withUndoableContext
        ⟨[⟨0, .robotMesh, true⟩, ⟨1, .floorMesh, true⟩, ⟨2, .otherMesh, true⟩], [], 0⟩
        (fun v => (v, some .planningError))).1.meshes.all
      (fun m => if m.id ∈ (ctxEnter
          ⟨[⟨0, .robotMesh, true⟩, ⟨1, .floorMesh, true⟩, ⟨2, .otherMesh, true⟩], [], 0⟩).2.disabledMeshes
        then m.collisionEnabled else true)) = true :=
  c7_shadow_context_restores
    ⟨[⟨0, .robotMesh, true⟩, ⟨1, .floorMesh, true⟩, ⟨2, .otherMesh, true⟩], [], 0⟩
    (fun v => (v, some .planningError)) rfl (fun _ => ⟨rfl, rfl⟩)

/-! ## NAVIGATE_TO candidate sampling (_sample_pose_near_object, _test_pose) -/

/-- Attempt budget of the candidate-sampling loop (source constant). -/
def MAX_ATTEMPTS_FOR_SAMPLING_POSE_NEAR_OBJECT : Nat := 200

/-- A candidate 2-D base pose (x, y, yaw). -/
structure Pose2d where
  x : ℚ
  y : ℚ
  yaw : ℚ
deriving DecidableEq, Repr

/-- Environment of one _sample_pose_near_object call: cand gives the
candidate pose of each attempt (computed in the source from a uniformly
drawn distance and yaw around pose_on_obj), roomOfPose the segmentation
map query, objRooms the target's room list, hasPoseOnObj whether a
manipulation pose was supplied, reachable the IK feasibility test of that
pose from the candidate, and collision the shadow-context collision
test. -/
structure SampleEnv where
  cand : Nat → Pose2d
  roomOfPose : Pose2d → Option Nat
  objRooms : List (Option Nat)
  hasPoseOnObj : Bool
  reachable : Pose2d → Bool
  collision : Pose2d → Bool

/-- Translation of _test_pose: reject when a manipulation pose was
supplied but is not IK-reachable, reject on collision, else accept. -/
def testPose (env : SampleEnv) (p : Pose2d) : Bool :=
  if env.hasPoseOnObj && !(env.reachable p) then false
  else if env.collision p then false
  else true

/-- One attempt of the sampling loop is accepted when the candidate's room
is among the target's rooms (the first continue) and _test_pose passes
(the second continue). -/
def acceptPose (env : SampleEnv) (p : Pose2d) : Bool :=
  env.objRooms.contains (env.roomOfPose p) && testPose env p

/-- The bounded for-loop of _sample_pose_near_object: return the first
accepted candidate, raise SAMPLING_ERROR when the attempts are
exhausted. -/
def samplePoseNearObjectLoop (env : SampleEnv) : Nat → Nat → Except APReason Pose2d
  | _, 0 => .error .samplingError
  | i, n + 1 =>
    if acceptPose env (env.cand i) then .ok (env.cand i)
    else samplePoseNearObjectLoop env (i + 1) n

/-- Translation of _sample_pose_near_object's candidate loop. -/
def samplePoseNearObject (env : SampleEnv) : Except APReason Pose2d :=
  samplePoseNearObjectLoop env 0 MAX_ATTEMPTS_FOR_SAMPLING_POSE_NEAR_OBJECT

theorem samplePoseNearObjectLoop_reject (env : SampleEnv) (n : Nat) :
    ∀ s, (∀ i, s ≤ i → i < s + n → acceptPose env (env.cand i) = false) →
      samplePoseNearObjectLoop env s n = .error .samplingError := by
  induction n with
  | zero => intro s _; rfl
  | succ n ih =>
    intro s h
    have h0 : acceptPose env (env.cand s) = false := h s le_rfl (by omega)
    simp only [samplePoseNearObjectLoop, h0, Bool.false_eq_true, if_false]
    exact ih (s + 1) (fun i hi1 hi2 => h i (by omega) (by omega))

theorem samplePoseNearObjectLoop_accept (env : SampleEnv) (n : Nat) :
    ∀ s j, s ≤ j → j < s + n → acceptPose env (env.cand j) = true →
      (∀ i, s ≤ i → i < j → acceptPose env (env.cand i) = false) →
      samplePoseNearObjectLoop env s n = .ok (env.cand j) := by
  induction n with
  | zero => intro s j hsj hjn _ _; omega
  | succ n ih =>
    intro s j hsj hjn hacc hmin
    cases hb : acceptPose env (env.cand s) with
    | true =>
      have hjs : j = s := by
        by_contra hne
        have hlt : s < j := lt_of_le_of_ne hsj (Ne.symm hne)
        rw [hmin s le_rfl hlt] at hb
        exact Bool.false_ne_true hb
      subst hjs
      simp [samplePoseNearObjectLoop, hb]
    | false =>
      have hsj2 : s + 1 ≤ j := by
        rcases Nat.eq_or_lt_of_le hsj with heq | hlt
        · rw [← heq] at hacc
          rw [hacc] at hb
          exact absurd hb (by simp)
        · omega
      simp only [samplePoseNearObjectLoop, hb, Bool.false_eq_true, if_false]
      exact ih (s + 1) j hsj2 (by omega) hacc (fun i hi1 hi2 => hmin i (by omega) hi2)

/-- C8: exhausting all 200 attempts with no candidate accepted (in-room,
collision-free, and IK-reachable when a manipulation pose was supplied)
raises SAMPLING_ERROR; otherwise the loop returns the first accepted
candidate. -/
theorem c8_sample_pose_near_object (env : SampleEnv) :
    ((∀ i, i < MAX_ATTEMPTS_FOR_SAMPLING_POSE_NEAR_OBJECT →
        acceptPose env (env.cand i) = false) →
      samplePoseNearObject env = .error .samplingError) ∧
    (∀ j, j < MAX_ATTEMPTS_FOR_SAMPLING_POSE_NEAR_OBJECT →
      acceptPose env (env.cand j) = true →
      (∀ i, i < j → acceptPose env (env.cand i) = false) →
      samplePoseNearObject env = .ok (env.cand j)) := by
  constructor
  · intro h
    exact samplePoseNearObjectLoop_reject env MAX_ATTEMPTS_FOR_SAMPLING_POSE_NEAR_OBJECT 0
      (fun i _ hi2 => h i (by omega))
  · intro j hj hacc hmin
    exact samplePoseNearObjectLoop_accept env MAX_ATTEMPTS_FOR_SAMPLING_POSE_NEAR_OBJECT 0 j
      (Nat.zero_le j) (by omega) hacc (fun i _ hi2 => hmin i hi2)

/-- Witness for C8: candidates at x = 0, 1, 2, ...; in-room everywhere; a
manipulation pose is supplied that is reachable only from x = 2; the loop
returns candidate 2.  With collisions everywhere instead, it raises
SAMPLING_ERROR. -/
theorem c8_sample_pose_near_object_witness :
    samplePoseNearObject
      ⟨fun i => ⟨(i : ℚ), 0, 0⟩, fun _ => some 0, [some 0], true,
       fun p => decide (p.x = 2), fun _ => false⟩ = .ok ⟨2, 0, 0⟩ ∧
    samplePoseNearObject
      ⟨fun i => ⟨(i : ℚ), 0, 0⟩, fun _ => some 0, [some 0], false,
       fun _ => true, fun _ => true⟩ = .error .samplingError :=
  ⟨(c8_sample_pose_near_object _).2 2 (by decide) (by decide)
      (fun i hi => by interval_cases i <;> decide),
   (c8_sample_pose_near_object _).1 (fun i _ => rfl)⟩

/-! ## Sticky grasp candidate generation (get_grasp_poses_for_object_sticky) -/

/-- A 3-vector of exact rationals. -/
abbrev Vec3 := ℚ × ℚ × ℚ

/-- np.max over the three components of the bounding-box extent. -/
def vmax3 (v : Vec3) : ℚ := max v.1 (max v.2.1 v.2.2)

set_option linter.unusedVariables false in
/-- Translation of get_grasp_poses_for_object_sticky.  The target object's
bounding box enters through its world-frame center and base-frame extent;
sqrtFn stands for the numeric square-root routine inside np.linalg.norm
and graspQuat for the fixed rotation T.euler2quat([0, pi/2, 0]), which
this claim does not constrain.  The force_allow_any_extent parameter is
carried but never read, as in the source. -/
def getGraspPosesForObjectSticky (sqrtFn : ℚ → ℚ) (graspQuat : Quat)
    (bboxCenter bboxExtent : Vec3) (forceAllowAnyExtent : Bool) :
    List ((Vec3 × Quat) × Vec3) :=
  let graspCenterPos : Vec3 :=
    (bboxCenter.1 + 0, bboxCenter.2.1 + 0, bboxCenter.2.2 + (vmax3 bboxExtent + 5 / 100))
  let towards : Vec3 :=
    (bboxCenter.1 - graspCenterPos.1, bboxCenter.2.1 - graspCenterPos.2.1,
     bboxCenter.2.2 - graspCenterPos.2.2)
  let nrm := sqrtFn (towards.1 ^ 2 + towards.2.1 ^ 2 + towards.2.2 ^ 2)
  [((graspCenterPos, graspQuat), (towards.1 / nrm, towards.2.1 / nrm, towards.2.2 / nrm))]

/-- C10: the sticky grasp generator returns exactly one candidate, whose
grasp position is the bounding-box center offset along +z by
max(extent) + 0.05 and whose approach direction is the straight-down unit
vector (0, 0, -1); the result does not depend on force_allow_any_extent.
The hypotheses say that the square-root routine is exact on the one value
it is applied to and that max(extent) + 0.05 is positive. -/
theorem c10_sticky_grasp (sqrtFn : ℚ → ℚ) (graspQuat : Quat) (center extent : Vec3)
    (flag flag2 : Bool)
    (hs : sqrtFn ((vmax3 extent + 5 / 100) ^ 2) = vmax3 extent + 5 / 100)
    (hpos : 0 < vmax3 extent + 5 / 100) :
    getGraspPosesForObjectSticky sqrtFn graspQuat center extent flag
      = [(((center.1 + 0, center.2.1 + 0, center.2.2 + (vmax3 extent + 5 / 100)), graspQuat),
          (0, 0, -1))] ∧
    getGraspPosesForObjectSticky sqrtFn graspQuat center extent flag
      = getGraspPosesForObjectSticky sqrtFn graspQuat center extent flag2 := by
  constructor
  · have h1 : center.1 - (center.1 + 0) = 0 := by ring
    have h2 : center.2.1 - (center.2.1 + 0) = 0 := by ring
    have h3 : center.2.2 - (center.2.2 + (vmax3 extent + 5 / 100))
        = -(vmax3 extent + 5 / 100) := by ring
    have harg : (0 : ℚ) ^ 2 + 0 ^ 2 + (-(vmax3 extent + 5 / 100)) ^ 2
        = (vmax3 extent + 5 / 100) ^ 2 := by ring
    simp only [getGraspPosesForObjectSticky, h1, h2, h3, harg, hs]
    simp only [zero_div, neg_div, div_self (ne_of_gt hpos)]
  · rfl

/-- Witness for C10 at a unit-cube bounding box centered at the origin,
with an exact square root supplied as a constant function. -/
theorem c10_sticky_grasp_witness :
    getGraspPosesForObjectSticky (fun _ => 21 / 20) ⟨1, 0, 0, 0⟩ (0, 0, 0) (1, 1, 1) true
      = [((((0 : ℚ) + 0, (0 : ℚ) + 0, (0 : ℚ) + (vmax3 (1, 1, 1) + 5 / 100)), ⟨1, 0, 0, 0⟩),
          (0, 0, -1))] ∧
    getGraspPosesForObjectSticky (fun _ => 21 / 20) ⟨1, 0, 0, 0⟩ (0, 0, 0) (1, 1, 1) true
      = getGraspPosesForObjectSticky (fun _ => 21 / 20) ⟨1, 0, 0, 0⟩ (0, 0, 0) (1, 1, 1) false :=
  c10_sticky_grasp (fun _ => 21 / 20) ⟨1, 0, 0, 0⟩ (0, 0, 0) (1, 1, 1) true false
    (by norm_num [vmax3]) (by norm_num [vmax3])

end OG
